import Mathlib

/-!
Verification of the pipresents-gtk playback driver (`pp_mpvdriver.py`) and the
central event/command dispatcher (`pipresents.py`).

The embedding is shallow: each Python method becomes a Lean function on an
explicit record of the instance attributes it reads and writes.  External
engine effects (the mpv player object, the Gtk renderer, GLib timers) are
tracked as fields of the record: `playerPause`, `playerVolume`, `playerVideo`,
`rendVisible` mirror the engine properties the driver sets; `playerStops` and
`playerTerminates` count calls of `player.stop()` / `player.terminate()`;
`observingLoad` / `observingShow` record whether the corresponding
`observe_property('time-pos', ...)` subscription is live; the timer fields
hold the GLib source handle (`none` mirrors Python `None`).  Values the
engine feeds back in (a renderer becoming ready, a `time-pos` property
change, `player.duration`, a fresh GLib source id) enter as parameters of the
function that consumes them.  Time quantities are rationals.
-/

namespace PiPresentsGtk

/-- Instance state of `MPVDriver` (`pp_mpvdriver.py`).  Fields not assigned in
`__init__` (they are assigned by `load` / `on_renderer_ready` / the status
loops before any code reads them) receive inert defaults in `initDriver`.
Geometry and track-path bookkeeping (`x`, `y`, `width`, `height`, `track`,
`options`) is elided: no modelled operation branches on it. -/
structure Driver where
  freeze_at_start : String
  freeze_at_end : String
  frozen_at_start : Bool
  frozen_at_end : Bool
  state : String
  user_pause : Bool
  quit_load_signal : Bool
  quit_show_signal : Bool
  load_complete_signal : Bool
  show_complete_signal : Bool
  show_status_timer : Option Nat
  load_status_timer : Option Nat
  has_video : Bool
  duration : ℚ
  load_timeout : Int
  load_position : ℚ
  show_position : Option ℚ
  playerPause : Bool
  playerVolume : ℚ
  playerVideo : Bool
  playerStops : Nat
  playerTerminates : Nat
  rendVisible : Bool
  observingLoad : Bool
  observingShow : Bool
deriving DecidableEq

/-- `MPVDriver.__init__(root,canvas,freeze_at_start,freeze_at_end,background_colour)`:
the constructor-assigned fields; the rest are inert defaults. -/
def initDriver (fas fae : String) : Driver :=
  { freeze_at_start := fas
    freeze_at_end := fae
    frozen_at_start := false
    frozen_at_end := false
    state := "idle"
    user_pause := false
    quit_load_signal := false
    quit_show_signal := false
    load_complete_signal := false
    show_complete_signal := false
    show_status_timer := none
    load_status_timer := none
    has_video := false
    duration := 0
    load_timeout := 0
    load_position := 0
    show_position := none
    playerPause := false
    playerVolume := 0
    playerVideo := true
    playerStops := 0
    playerTerminates := 0
    rendVisible := false
    observingLoad := false
    observingShow := false }

namespace Driver

/-- `MPVDriver.load(track,options,x,y,width,height)`.  `hasVideo` is the
result of the external `file_has_video(track)` probe; renderer construction
and canvas placement are display-side effects with no modelled state. -/
def load (d : Driver) (hasVideo : Bool) : Driver :=
  { d with state := "load-loading"
           load_position := -1
           load_complete_signal := false
           has_video := hasVideo }

/-- `MPVDriver.on_renderer_ready`: hides the renderer, starts playback,
subscribes the load observer, zeroes the volume, arms the tick-counted load
timeout and the 1 ms load status timer (`timerHandle` is the GLib source id
returned by `GLib.timeout_add`). -/
def on_renderer_ready (d : Driver) (timerHandle : Nat) : Driver :=
  { d with rendVisible := false
           observingLoad := true
           playerVolume := 0
           load_timeout := 500
           load_status_timer := some timerHandle }

/-- `MPVDriver.load_property_change(name,value)`: the engine's property
callback during loading; a first valid (non-None, `>= 0`) `time-pos` pauses
the engine, unsubscribes, and raises the one-shot load-complete signal. -/
def load_property_change (d : Driver) (name : String) (value : Option ℚ) : Driver :=
  match value with
  | some v =>
      if name = "time-pos" ∧ v ≥ 0 then
        { d with rendVisible := false
                 playerPause := true
                 observingLoad := false
                 load_complete_signal := true
                 load_position := v }
      else d
  | none => d

/-- `MPVDriver.load_status_loop`: one tick of the load poll.  It always
de-registers its own timer first, then checks the pending-quit signal, then
the pending-completion signal, then decrements the timeout budget and
re-arms.  `playerDuration` is the engine's `player.duration` read in the
completion branch; `timerHandle` the fresh source id of the re-armed timer. -/
def load_status_loop (d : Driver) (playerDuration : ℚ) (timerHandle : Nat) : Driver :=
  let d0 := { d with load_status_timer := none }
  if d0.quit_load_signal then
    { d0 with quit_load_signal := false
              playerStops := d0.playerStops + 1
              state := "load-unloaded" }
  else if d0.load_complete_signal then
    let d1 := { d0 with load_complete_signal := false
                        duration := playerDuration
                        frozen_at_start := true }
    let d2 :=
      if d1.freeze_at_start = "before-first-frame" ∨ d1.freeze_at_start = "after-first-frame"
      then { d1 with state := "load-frozen" }
      else { d1 with state := "load-ok" }
    if d2.freeze_at_start = "after-first-frame" then { d2 with rendVisible := true } else d2
  else
    let d1 := { d0 with load_timeout := d0.load_timeout - 1 }
    if d1.load_timeout ≤ 0 then { d1 with state := "load-fail" }
    else { d1 with load_status_timer := some timerHandle }

/-- `MPVDriver.show(initial_volume)` (named `showTrack`: `show` is a Lean
keyword).  The whole body is guarded by `freeze_at_start == 'no'`; in every
other freeze mode the call returns without touching anything. -/
def showTrack (d : Driver) (initial_volume : ℚ) (timerHandle : Nat) : Driver :=
  if d.freeze_at_start = "no" then
    { d with state := "show-showing"
             playerPause := false
             rendVisible := if d.has_video then true else d.rendVisible
             playerVolume := initial_volume
             show_complete_signal := false
             observingShow := true
             frozen_at_start := false
             show_status_timer := some timerHandle }
  else d

/-- `MPVDriver.show_complete_change(name,value)`: the engine's property
callback while showing.  `show_position` is first reset to `-1`; with
`freeze_at_end == 'yes'` completion fires when `time-pos` is None (overrun)
or exceeds `duration - 0.12`; otherwise only when `time-pos` is None.  On
completion the volume is forced to 0 and the observer is unsubscribed. -/
def show_complete_change (d : Driver) (name : String) (value : Option ℚ) : Driver :=
  let d0 := { d with show_position := some (-1) }
  if d0.freeze_at_end = "yes" then
    match value with
    | none =>
        if name = "time-pos" then
          { d0 with show_complete_signal := true
                    playerVolume := 0
                    observingShow := false
                    show_position := none }
        else d0
    | some v =>
        if name = "time-pos" ∧ v > d0.duration - 12/100 then
          { d0 with show_complete_signal := true
                    playerVolume := 0
                    observingShow := false
                    show_position := some v }
        else d0
  else
    if name = "time-pos" ∧ value = none then
      { d0 with show_complete_signal := true
                playerVolume := 0
                observingShow := false
                show_position := none }
    else d0

/-- `MPVDriver.show_status_loop`: one tick of the show poll.  De-registers
its own timer (guarded), then checks the pending-quit signal, then the
pending-completion signal, else re-arms with a 30 ms timer. -/
def show_status_loop (d : Driver) (timerHandle : Nat) : Driver :=
  let d0 := if d.show_status_timer ≠ none then { d with show_status_timer := none } else d
  if d0.quit_show_signal then
    if d0.freeze_at_end = "yes" then
      { d0 with quit_show_signal := false
                frozen_at_end := true
                playerPause := true
                state := "show-pauseatend" }
    else
      { d0 with quit_show_signal := false
                playerStops := d0.playerStops + 1
                state := "show-niceday" }
  else if d0.show_complete_signal then
    if d0.freeze_at_end = "yes" then
      { d0 with show_complete_signal := false
                playerPause := true
                frozen_at_end := true
                state := "show-pauseatend" }
    else
      { d0 with show_complete_signal := false
                state := "show-niceday"
                frozen_at_end := false
                playerVideo := false
                rendVisible := false
                playerStops := d0.playerStops + 1 }
  else
    { d0 with show_status_timer := some timerHandle }

/-- `MPVDriver.close()`: stops video and the engine, hides the renderer, and
cancels each status timer exactly when its handle is non-None.  The returned
booleans record whether `GLib.source_remove` ran for the load / show timer.
The engine session itself is never freed here (`player.terminate()` is
commented out in the source), which `playerTerminates` makes visible. -/
def close (d : Driver) : Driver × Bool × Bool :=
  let d1 := { d with playerVideo := false
                     playerStops := d.playerStops + 1
                     rendVisible := false }
  let loadCancel := d1.load_status_timer.isSome
  let d2 := if d1.load_status_timer.isSome then { d1 with load_status_timer := none } else d1
  let showCancel := d2.show_status_timer.isSome
  let d3 := if d2.show_status_timer.isSome then { d2 with show_status_timer := none } else d2
  (d3, loadCancel, showCancel)

/-- `MPVDriver.go(initial_volume)`: releases a freeze-at-start hold.  The
guard is the `frozen_at_start` flag, not the state string. -/
def go (d : Driver) (initial_volume : ℚ) (timerHandle : Nat) : Driver × String :=
  if d.frozen_at_start then
    ({ d with state := "show-showing"
              playerPause := false
              rendVisible := true
              playerVolume := initial_volume
              show_complete_signal := false
              observingShow := true
              show_status_timer := some timerHandle
              frozen_at_start := false }, "go-ok")
  else (d, "go-reject")

/-- `MPVDriver.pause()`: toggles user pause, guarded by state `show-showing`
and both frozen flags clear; otherwise rejects without touching anything. -/
def pause (d : Driver) : Driver × String :=
  if d.state = "show-showing" ∧ d.frozen_at_end = false ∧ d.frozen_at_start = false then
    if d.user_pause then
      ({ d with playerPause := false, user_pause := false }, "pause-off-ok")
    else
      ({ d with user_pause := true, playerPause := true }, "pause-on-ok")
  else (d, "pause-reject")

/-- `MPVDriver.stop()`: while frozen at start it stops the engine and moves
to `show-niceday` synchronously; otherwise it only raises the cooperative
quit signal serviced by the next `show_status_loop` tick. -/
def stop (d : Driver) : Driver :=
  if d.frozen_at_start then
    { d with playerStops := d.playerStops + 1, state := "show-niceday" }
  else
    { d with quit_show_signal := true }

/-- `MPVDriver.unload()`: in `load-loading` raises the cooperative quit-load
signal; in any other state moves straight to `load-unloaded`. -/
def unload (d : Driver) : Driver :=
  if d.state = "load-loading" then { d with quit_load_signal := true }
  else { d with state := "load-unloaded" }

end Driver

/-!
The event/command dispatcher of `pipresents.py` (`PiPresents`).  Only the
dispatcher-owned mutable state that the modelled handlers read or write is
carried: the five pending-shutdown intent flags, the show registry (one
`Option` handle per `ShowEntry`, `none` mirroring a `None` show object), the
`all_shows_exited()` query result, and the `osc_enabled` / `vibes` options.
Anything a handler delegates to a collaborator outside `src/` (OSC driver,
counter manager, beep player, display manager, show manager) is recorded as
an explicit effect value; the `(status, message)` pair such a call returns is
supplied as the `ctl` parameter.
-/

/-- Dispatcher-owned state of `PiPresents`, initialised in `on_activate`. -/
structure Dispatcher where
  shutdown_required : Bool
  reboot_required : Bool
  terminate_required : Bool
  exitpipresents_required : Bool
  restartpipresents_required : Bool
  shows : List (Option Nat)
  all_shows_exited : Bool
  osc_enabled : Bool
  vibes : Bool
deriving DecidableEq

/-- Observable outcome of `PiPresents.handle_input_event`. -/
inductive InEffect where
  /-- `pp-terminate`: `handle_user_abort` → `terminate()`. -/
  | terminateApp : InEffect
  /-- `pp-shutdown`: removed event, `self.end('error', ...)`. -/
  | shutdownRemovedError : InEffect
  /-- `pp-shutdownnow`: 1 ms timer to `shutdownnow_pressed`. -/
  | shutdownNowScheduled : InEffect
  /-- All shows already exited: 1 ms timer to `e_all_shows_ended_callback`. -/
  | endCallbackScheduled : InEffect
  /-- `show_manager.exit_all_shows()` requested. -/
  | exitAllShows : InEffect
  /-- Broadcast to the listed live show handles, in registry order. -/
  | broadcast : List Nat → InEffect
deriving DecidableEq

/-- The broadcast loop of `handle_input_event`: for each registry entry, the
event is delivered iff the entry's show object is not `None`; the result is
the ordered list of recipients. -/
def broadcastShows : List (Option Nat) → List Nat
  | [] => []
  | none :: rest => broadcastShows rest
  | some s :: rest => s :: broadcastShows rest

/-- `PiPresents.handle_input_event(symbol, source)` (`source` is logged
only).  Returns the dispatcher state after the handler plus its effect. -/
def handle_input_event (p : Dispatcher) (symbol : String) : Dispatcher × InEffect :=
  match symbol with
  | "pp-terminate" => ({ p with terminate_required := true }, .terminateApp)
  | "pp-shutdown" => (p, .shutdownRemovedError)
  | "pp-shutdownnow" => (p, .shutdownNowScheduled)
  | "pp-exitpipresents" =>
      if p.all_shows_exited then
        ({ p with exitpipresents_required := true }, .endCallbackScheduled)
      else
        ({ p with exitpipresents_required := true }, .exitAllShows)
  | "pp-restartpipresents" =>
      if p.all_shows_exited then
        ({ p with restartpipresents_required := true }, .endCallbackScheduled)
      else
        ({ p with restartpipresents_required := true }, .exitAllShows)
  | _ => (p, .broadcast (broadcastShows p.shows))

/-- Observable outcome of `PiPresents.handle_command`. -/
inductive CmdEffect where
  /-- Silent return (empty command, OSC disabled, show verb suppressed
  during shutdown/termination). -/
  | silent : CmdEffect
  /-- Delegated to `oscdriver.parse_osc_command(fields[1:])`. -/
  | oscDelegated : List String → CmdEffect
  /-- Delegated to `counter_manager.parse_counter_command(fields[1:])`. -/
  | counterDelegated : List String → CmdEffect
  /-- Delegated to `bp.play_show_beep(command_text)`. -/
  | beepDelegated : CmdEffect
  /-- Delegated to `vp.play_show_vibe(command_text)`. -/
  | vibeDelegated : CmdEffect
  /-- Delegated to `dm.do_backlight_command(command_text)`. -/
  | backlightDelegated : CmdEffect
  /-- Delegated to `dm.handle_monitor_command(fields[1:])`. -/
  | monitorDelegated : List String → CmdEffect
  /-- Delegated to `handle_cec_command(fields[1:])`. -/
  | cecDelegated : List String → CmdEffect
  /-- Delegated to `show_control_handle_animate(' '.join(fields[1:]))`. -/
  | animateDelegated : String → CmdEffect
  /-- `show_manager.control_a_show(show_ref, show_command)` succeeded. -/
  | showControl : String → String → CmdEffect
  /-- `event` verb: re-dispatched through `handle_input_event`. -/
  | eventRedispatch : String → InEffect → CmdEffect
  /-- All shows already exited: 1 ms timer to `e_all_shows_ended_callback`. -/
  | endCallbackScheduled : CmdEffect
  /-- `show_manager.exit_all_shows()` requested. -/
  | exitAllShows : CmdEffect
  /-- 1 ms timer to `shutdownnow_pressed`. -/
  | shutdownNowScheduled : CmdEffect
  /-- 1 ms timer to `reboot_pressed`. -/
  | rebootScheduled : CmdEffect
  /-- `self.mon.err` followed by `self.end('error', message)`: the run
  terminates with an error. -/
  | commandError : String → CmdEffect
deriving DecidableEq

/-- Helper for `tokenize`: walks the character list, accumulating the
current word in reverse; whitespace closes the word (empty words are
dropped, matching Python `str.split()` with no argument). -/
def tokenizeAux : List Char → List Char → List String
  | [], acc => if acc = [] then [] else [String.mk acc.reverse]
  | c :: cs, acc =>
      if c.isWhitespace then
        if acc = [] then tokenizeAux cs []
        else String.mk acc.reverse :: tokenizeAux cs []
      else tokenizeAux cs (c :: acc)

/-- Python `command_text.split()`: split on whitespace runs, dropping empty
pieces. -/
def tokenize (s : String) : List String :=
  tokenizeAux s.toList []

/-- `PiPresents.handle_command(command_text, source, show)` (`source` and
`show` are logged only).  `ctl` is the `(status, message)` pair returned by
the single show-manager call the executed branch makes (`control_a_show` for
the show verbs, `exit_all_shows` for `exitpipresents`); it is ignored by
branches that make no such call. -/
def handle_command (p : Dispatcher) (command_text : String) (ctl : String × String) :
    Dispatcher × CmdEffect :=
  match tokenize command_text with
  | [] => (p, .silent)
  | first :: rest =>
    -- Python: `show_ref = fields[1] if len(fields) > 1 else ''` is `rest.headD ""`
    match first with
    | "osc" | "OSC" =>
        if p.osc_enabled then (p, .oscDelegated rest) else (p, .silent)
    | "counter" => (p, .counterDelegated rest)
    | "beep" => (p, .beepDelegated)
    | "vibe" =>
        if p.vibes then (p, .vibeDelegated) else (p, .commandError "")
    | "backlight" => (p, .backlightDelegated)
    | "monitor" => (p, .monitorDelegated rest)
    | "cec" => (p, .cecDelegated rest)
    | "animate" => (p, .animateDelegated (String.intercalate " " rest))
    | "open" | "close" | "closeall" | "openexclusive" =>
        if p.shutdown_required = false ∧ p.terminate_required = false then
          if ctl.1 = "error" then (p, .commandError ctl.2)
          else (p, .showControl first (rest.headD ""))
        else (p, .silent)
    | "event" =>
        ((handle_input_event p (rest.headD "")).1,
          .eventRedispatch (rest.headD "") (handle_input_event p (rest.headD "")).2)
    | "exitpipresents" =>
        if p.all_shows_exited then
          ({ p with exitpipresents_required := true }, .endCallbackScheduled)
        else if ctl.1 = "error" then
          ({ p with exitpipresents_required := true }, .commandError ctl.2)
        else ({ p with exitpipresents_required := true }, .exitAllShows)
    | "shutdownnow" => (p, .shutdownNowScheduled)
    | "reboot" => (p, .rebootScheduled)
    | _ => (p, .commandError ("command not recognised: " ++ first))

/-- `PiPresents.shutdownnow_pressed`: sets the shutdown intent, then either
runs the all-shows-ended callback or exits all shows (neither touches the
flags). -/
def shutdownnow_pressed (p : Dispatcher) : Dispatcher :=
  { p with shutdown_required := true }

/-- `PiPresents.reboot_pressed`: sets the reboot intent. -/
def reboot_pressed (p : Dispatcher) : Dispatcher :=
  { p with reboot_required := true }

/-- `PiPresents.terminate`: sets the terminate intent, then terminates each
live show, or ends with reason `killed` when none is live (no flag is
written by either continuation). -/
def terminate (p : Dispatcher) : Dispatcher :=
  { p with terminate_required := true }

/-- One dispatcher operation of a run, after `on_activate` initialisation:
an input event, a text command, one of the deferred-timer handlers, a
process signal / user abort (both route to `terminate`), or the aggregate
all-shows-ended callback (which only reads the flags). -/
inductive DOp where
  | input : String → DOp
  | command : String → String × String → DOp
  | shutdownnowFires : DOp
  | rebootFires : DOp
  | sigterm : DOp
  | userAbort : DOp
  | allShowsEnded : DOp
deriving DecidableEq

/-- State transition of one dispatcher operation. -/
def applyOp (p : Dispatcher) : DOp → Dispatcher
  | .input s => (handle_input_event p s).1
  | .command t c => (handle_command p t c).1
  | .shutdownnowFires => shutdownnow_pressed p
  | .rebootFires => reboot_pressed p
  | .sigterm => terminate p
  | .userAbort => terminate p
  | .allShowsEnded => p

/-- Pending-shutdown intent flags only grow from `p` to `q`: any flag already
`True` in `p` is still `True` in `q`. -/
def FlagLe (p q : Dispatcher) : Prop :=
  (p.shutdown_required = true → q.shutdown_required = true) ∧
  (p.reboot_required = true → q.reboot_required = true) ∧
  (p.terminate_required = true → q.terminate_required = true) ∧
  (p.exitpipresents_required = true → q.exitpipresents_required = true) ∧
  (p.restartpipresents_required = true → q.restartpipresents_required = true)

/-!  Sample states used to instantiate theorems with hypotheses, and the
concrete states of the counterexamples. -/

/-- A driver mid-show: `show()` has run with no freeze-at-start. -/
def dShowing : Driver :=
  { initDriver "no" "no" with
      state := "show-showing"
      duration := 2
      playerVolume := 50
      user_pause := true
      show_status_timer := some 4
      observingShow := true
      has_video := true
      rendVisible := true }

/-- A driver still frozen at start after a `load-frozen` load. -/
def dFrozenStart : Driver :=
  { initDriver "before-first-frame" "no" with
      state := "load-frozen"
      frozen_at_start := true
      playerPause := true
      duration := 2 }

/-- A freeze-at-end driver mid-show. -/
def dFreezeEnd : Driver :=
  { initDriver "no" "yes" with
      state := "show-showing"
      duration := 2
      playerVolume := 50
      show_status_timer := some 4
      observingShow := true }

/-- A loading driver with both the quit-load and the load-complete signal
raised in the same tick. -/
def dLoadRace : Driver :=
  { initDriver "no" "no" with
      state := "load-loading"
      quit_load_signal := true
      load_complete_signal := true
      load_status_timer := some 3 }

/-- A showing driver with both the quit-show and the show-complete signal
raised in the same tick. -/
def dShowRace : Driver :=
  { dShowing with quit_show_signal := true, show_complete_signal := true }

/-- The driver reached by `init → load → renderer ready → first valid
position → load_status_loop tick` with `freeze_at_start = 'no'`: its state is
`load-ok` and its `frozen_at_start` flag is `True`. -/
def loadOkDriver : Driver :=
  Driver.load_status_loop
    (Driver.load_property_change
      (Driver.on_renderer_ready (Driver.load (initDriver "no" "no") true) 7)
      "time-pos" (some 0)) 2 9

/-!  Helper lemmas. -/

theorem broadcastShows_eq_filterMap (l : List (Option Nat)) :
    broadcastShows l = l.filterMap id := by
  induction l with
  | nil => rfl
  | cons a rest ih => cases a <;> simp [broadcastShows, ih]

/-- Characterisation of the state `handle_input_event` leaves behind: the
handler returns `p` itself or `p` with exactly one intent flag raised. -/
theorem handle_input_event_fst (p : Dispatcher) (s : String) :
    (handle_input_event p s).1 = p ∨
    (handle_input_event p s).1 = { p with terminate_required := true } ∨
    (handle_input_event p s).1 = { p with exitpipresents_required := true } ∨
    (handle_input_event p s).1 = { p with restartpipresents_required := true } := by
  unfold handle_input_event
  repeat
    first
      | exact Or.inl rfl
      | exact Or.inr (Or.inl rfl)
      | exact Or.inr (Or.inr (Or.inl rfl))
      | exact Or.inr (Or.inr (Or.inr rfl))
      | split

set_option maxHeartbeats 1600000 in
/-- Characterisation of the state `handle_command` leaves behind: `p`
itself, `p` with the exit intent raised, or the state of a re-dispatched
input event. -/
theorem handle_command_fst (p : Dispatcher) (t : String) (c : String × String) :
    (handle_command p t c).1 = p ∨
    (handle_command p t c).1 = { p with exitpipresents_required := true } ∨
    (∃ s, (handle_command p t c).1 = (handle_input_event p s).1) := by
  unfold handle_command
  rcases htok : tokenize t with _ | ⟨first, rest⟩ <;> simp only [htok]
  · left; trivial
  · repeat
      first
        | exact Or.inl rfl
        | exact Or.inr (Or.inl rfl)
        | exact Or.inr (Or.inr ⟨rest.headD "", rfl⟩)
        | split

/-- The flags are monotone across one `handle_input_event`. -/
theorem flagLe_handle_input_event (p : Dispatcher) (s : String) :
    FlagLe p (handle_input_event p s).1 := by
  rcases handle_input_event_fst p s with h | h | h | h <;> rw [h] <;>
    exact ⟨fun hf => by simp_all, fun hf => by simp_all, fun hf => by simp_all,
           fun hf => by simp_all, fun hf => by simp_all⟩

/-- The flags are monotone across one `handle_command`. -/
theorem flagLe_handle_command (p : Dispatcher) (t : String) (c : String × String) :
    FlagLe p (handle_command p t c).1 := by
  rcases handle_command_fst p t c with h | h | ⟨s, h⟩
  · rw [h]; exact ⟨id, id, id, id, id⟩
  · rw [h]
    exact ⟨fun hf => by simp_all, fun hf => by simp_all, fun hf => by simp_all,
           fun hf => by simp_all, fun hf => by simp_all⟩
  · rw [h]; exact flagLe_handle_input_event p s

/-- The flags are monotone across any single dispatcher operation. -/
theorem flagLe_applyOp (p : Dispatcher) (op : DOp) : FlagLe p (applyOp p op) := by
  cases op with
  | input s => exact flagLe_handle_input_event p s
  | command t c => exact flagLe_handle_command p t c
  | shutdownnowFires =>
      exact ⟨fun hf => by simp_all [applyOp, shutdownnow_pressed],
             fun hf => by simp_all [applyOp, shutdownnow_pressed],
             fun hf => by simp_all [applyOp, shutdownnow_pressed],
             fun hf => by simp_all [applyOp, shutdownnow_pressed],
             fun hf => by simp_all [applyOp, shutdownnow_pressed]⟩
  | rebootFires =>
      exact ⟨fun hf => by simp_all [applyOp, reboot_pressed],
             fun hf => by simp_all [applyOp, reboot_pressed],
             fun hf => by simp_all [applyOp, reboot_pressed],
             fun hf => by simp_all [applyOp, reboot_pressed],
             fun hf => by simp_all [applyOp, reboot_pressed]⟩
  | sigterm =>
      exact ⟨fun hf => by simp_all [applyOp, terminate],
             fun hf => by simp_all [applyOp, terminate],
             fun hf => by simp_all [applyOp, terminate],
             fun hf => by simp_all [applyOp, terminate],
             fun hf => by simp_all [applyOp, terminate]⟩
  | userAbort =>
      exact ⟨fun hf => by simp_all [applyOp, terminate],
             fun hf => by simp_all [applyOp, terminate],
             fun hf => by simp_all [applyOp, terminate],
             fun hf => by simp_all [applyOp, terminate],
             fun hf => by simp_all [applyOp, terminate]⟩
  | allShowsEnded => exact ⟨id, id, id, id, id⟩

theorem flagLe_trans {p q r : Dispatcher} (h1 : FlagLe p q) (h2 : FlagLe q r) :
    FlagLe p r :=
  ⟨fun h => h2.1 (h1.1 h), fun h => h2.2.1 (h1.2.1 h),
   fun h => h2.2.2.1 (h1.2.2.1 h), fun h => h2.2.2.2.1 (h1.2.2.2.1 h),
   fun h => h2.2.2.2.2 (h1.2.2.2.2 h)⟩

/-- A dispatcher with no intent flag raised and a registry holding two live
shows around a dead entry. -/
def pW : Dispatcher :=
  { shutdown_required := false
    reboot_required := false
    terminate_required := false
    exitpipresents_required := false
    restartpipresents_required := false
    shows := [some 0, none, some 1]
    all_shows_exited := false
    osc_enabled := false
    vibes := false }

/-- The dispatcher with every intent flag raised. -/
def pAllIntents : Dispatcher :=
  { pW with
      shutdown_required := true
      reboot_required := true
      terminate_required := true
      exitpipresents_required := true
      restartpipresents_required := true }

/-!  Claim theorems. -/

/-- C6: `pause()` returns `pause-reject` exactly when the state is not
`show-showing` or a frozen flag is active, and a reject leaves the driver
(and hence the engine pause) untouched; under the guard it toggles between
`pause-off-ok` and `pause-on-ok`, flipping `user_pause` and the engine
pause. -/
theorem pause_toggle_guard (d : Driver) :
    ((d.pause).2 = "pause-reject" ↔
      ¬(d.state = "show-showing" ∧ d.frozen_at_end = false ∧ d.frozen_at_start = false)) ∧
    ((d.pause).2 = "pause-reject" → (d.pause).1 = d) ∧
    (d.state = "show-showing" → d.frozen_at_end = false → d.frozen_at_start = false →
      (d.user_pause = true →
        d.pause = ({ d with playerPause := false, user_pause := false }, "pause-off-ok")) ∧
      (d.user_pause = false →
        d.pause = ({ d with user_pause := true, playerPause := true }, "pause-on-ok"))) := by
  unfold Driver.pause
  split_ifs with hg hu <;> simp_all

/-- Witness for C6: on a showing, unfrozen driver with user pause active,
`pause()` toggles pause off. -/
theorem pause_toggle_guard_witness :
    Driver.pause dShowing =
      ({ dShowing with playerPause := false, user_pause := false }, "pause-off-ok") :=
  ((pause_toggle_guard dShowing).2.2 rfl rfl rfl).1 rfl

/-- C8: after any `close()` both timer handles are `None`; a second `close()`
performs no timer de-registration for either timer, and neither call frees
the engine session (`playerTerminates` never moves). -/
theorem close_idempotent (d : Driver) :
    ((Driver.close d).1.load_status_timer = none) ∧
    ((Driver.close d).1.show_status_timer = none) ∧
    ((Driver.close (Driver.close d).1).2.1 = false) ∧
    ((Driver.close (Driver.close d).1).2.2 = false) ∧
    ((Driver.close (Driver.close d).1).1.load_status_timer = none) ∧
    ((Driver.close (Driver.close d).1).1.show_status_timer = none) ∧
    ((Driver.close d).1.playerTerminates = d.playerTerminates) ∧
    ((Driver.close (Driver.close d).1).1.playerTerminates = d.playerTerminates) := by
  cases hl : d.load_status_timer <;> cases hs : d.show_status_timer <;>
    simp [Driver.close, hl, hs]

/-- C9: with any freeze-at-start mode other than `'no'`, `show()` is a
silent no-op: the whole driver record, and with it the state, engine pause,
volume, visibility, and timers, is unchanged. -/
theorem show_frozen_noop (d : Driver) (v : ℚ) (h : Nat)
    (hf : d.freeze_at_start ≠ "no") : d.showTrack v h = d := by
  unfold Driver.showTrack
  simp [hf]

/-- Witness for C9: a before-first-frame driver is untouched by `show`. -/
theorem show_frozen_noop_witness :
    Driver.showTrack dFrozenStart 100 3 = dFrozenStart :=
  show_frozen_noop dFrozenStart 100 3 (by decide)

/-- C10: `stop()` while frozen at start synchronously stops the engine and
sets `show-niceday` without raising `quit_show_signal`; otherwise it only
raises `quit_show_signal`, which the next `show_status_loop` tick turns into
the quit-branch state. -/
theorem stop_sync_or_deferred (d : Driver) (h : Nat) :
    (d.frozen_at_start = true →
      d.stop = { d with playerStops := d.playerStops + 1, state := "show-niceday" }) ∧
    (d.frozen_at_start = false →
      d.stop = { d with quit_show_signal := true } ∧
      ((d.stop).show_status_loop h).state =
        (if d.freeze_at_end = "yes" then "show-pauseatend" else "show-niceday")) := by
  constructor
  · intro hf
    unfold Driver.stop
    simp [hf]
  · intro hf
    refine ⟨by unfold Driver.stop; simp [hf], ?_⟩
    rcases hst : d.show_status_timer with _ | n <;>
      by_cases hfe : d.freeze_at_end = "yes" <;>
        simp [Driver.stop, Driver.show_status_loop, hf, hst, hfe]

/-- Witness for C10: a showing driver with no freeze-at-end gets the
deferred quit and reaches `show-niceday` on the next tick. -/
theorem stop_sync_or_deferred_witness :
    Driver.stop dShowing = { dShowing with quit_show_signal := true } ∧
    ((Driver.stop dShowing).show_status_loop 9).state =
      (if dShowing.freeze_at_end = "yes" then "show-pauseatend" else "show-niceday") :=
  (stop_sync_or_deferred dShowing 9).2 rfl

/-- C2: when a quit signal and the corresponding completion signal are both
pending in the same tick, one `load_status_loop` tick lands in
`load-unloaded` and one `show_status_loop` tick lands in the quit-branch
state (`show-pauseatend` with freeze-at-end, else `show-niceday`); the
completion signals are not consumed and the natural-completion effects
(clearing the signal, dropping `player.video`) never happen — stop wins. -/
theorem quit_checked_before_completion (d e : Driver) (pd : ℚ) (h1 h2 : Nat)
    (hdq : d.quit_load_signal = true) (hdc : d.load_complete_signal = true)
    (heq : e.quit_show_signal = true) (hec : e.show_complete_signal = true) :
    ((d.load_status_loop pd h1).state = "load-unloaded") ∧
    ((d.load_status_loop pd h1).load_complete_signal = true) ∧
    ((e.show_status_loop h2).state =
      (if e.freeze_at_end = "yes" then "show-pauseatend" else "show-niceday")) ∧
    ((e.show_status_loop h2).show_complete_signal = true) ∧
    ((e.show_status_loop h2).playerVideo = e.playerVideo) := by
  refine ⟨?_, ?_, ?_, ?_, ?_⟩
  · unfold Driver.load_status_loop
    simp [hdq]
  · unfold Driver.load_status_loop
    simp [hdq, hdc]
  · rcases hst : e.show_status_timer with _ | n <;>
      by_cases hfe : e.freeze_at_end = "yes" <;>
        simp [Driver.show_status_loop, hst, hfe, heq]
  · rcases hst : e.show_status_timer with _ | n <;>
      by_cases hfe : e.freeze_at_end = "yes" <;>
        simp [Driver.show_status_loop, hst, hfe, heq, hec]
  · rcases hst : e.show_status_timer with _ | n <;>
      by_cases hfe : e.freeze_at_end = "yes" <;>
        simp [Driver.show_status_loop, hst, hfe, heq]

/-- Witness for C2: both races resolved in favour of the quit path on
concrete drivers. -/
theorem quit_checked_before_completion_witness :
    ((Driver.load_status_loop dLoadRace 2 5).state = "load-unloaded") ∧
    ((Driver.load_status_loop dLoadRace 2 5).load_complete_signal = true) ∧
    ((Driver.show_status_loop dShowRace 6).state =
      (if dShowRace.freeze_at_end = "yes" then "show-pauseatend" else "show-niceday")) ∧
    ((Driver.show_status_loop dShowRace 6).show_complete_signal = true) ∧
    ((Driver.show_status_loop dShowRace 6).playerVideo = dShowRace.playerVideo) :=
  quit_checked_before_completion dLoadRace dShowRace 2 5 6 rfl rfl rfl rfl

/-- C7: with freeze-at-end set, the position observer raises the completion
signal exactly when the observed `time-pos` is `None` or exceeds
`duration - 0.12`; at that completion the volume is forced to 0, and the
next status-loop tick pauses the engine and moves the polled state to
`show-pauseatend`. -/
theorem freeze_at_end_completion (d : Driver) (v : Option ℚ) (h : Nat)
    (hf : d.freeze_at_end = "yes") (_hst : d.state = "show-showing")
    (hs : d.show_complete_signal = false) (hq : d.quit_show_signal = false) :
    ((d.show_complete_change "time-pos" v).show_complete_signal = true ↔
      (v = none ∨ ∃ q : ℚ, v = some q ∧ q > d.duration - 12/100)) ∧
    ((d.show_complete_change "time-pos" v).show_complete_signal = true →
      (d.show_complete_change "time-pos" v).playerVolume = 0 ∧
      ((d.show_complete_change "time-pos" v).show_status_loop h).playerPause = true ∧
      ((d.show_complete_change "time-pos" v).show_status_loop h).state = "show-pauseatend") := by
  rcases v with _ | q
  · constructor
    · unfold Driver.show_complete_change
      simp [hf]
    · intro hc
      refine ⟨by unfold Driver.show_complete_change; simp [hf], ?_, ?_⟩ <;>
        rcases hti : d.show_status_timer with _ | n <;>
          simp [Driver.show_complete_change, Driver.show_status_loop, hf, hq, hti]
  · by_cases hgt : q > d.duration - 12/100
    · constructor
      · unfold Driver.show_complete_change
        simp [hf, hgt]
      · intro hc
        refine ⟨by unfold Driver.show_complete_change; simp [hf, hgt], ?_, ?_⟩ <;>
          rcases hti : d.show_status_timer with _ | n <;>
            simp [Driver.show_complete_change, Driver.show_status_loop, hf, hgt, hq, hti]
    · constructor
      · unfold Driver.show_complete_change
        simp [hf, hgt, hs]
      · intro hc
        unfold Driver.show_complete_change at hc
        simp [hf, hgt, hs] at hc

/-- Witness for C7: a 2-second freeze-at-end track observed at 1.9s (past
the 1.88s epsilon point) completes, mutes, and is paused at
`show-pauseatend` by the next tick. -/
theorem freeze_at_end_completion_witness :
    ((Driver.show_complete_change dFreezeEnd "time-pos" (some (19/10))).show_complete_signal
        = true) ∧
    ((Driver.show_complete_change dFreezeEnd "time-pos" (some (19/10))).playerVolume = 0) ∧
    ((Driver.show_status_loop
        (Driver.show_complete_change dFreezeEnd "time-pos" (some (19/10))) 8).playerPause
        = true) ∧
    ((Driver.show_status_loop
        (Driver.show_complete_change dFreezeEnd "time-pos" (some (19/10))) 8).state
        = "show-pauseatend") := by
  have hthm := freeze_at_end_completion dFreezeEnd (some (19/10)) 8 rfl rfl rfl rfl
  have hc : (Driver.show_complete_change dFreezeEnd "time-pos"
      (some (19/10))).show_complete_signal = true :=
    hthm.1.mpr (Or.inr ⟨19/10, rfl, by
      have hd : dFreezeEnd.duration = 2 := rfl
      rw [hd]; norm_num⟩)
  exact ⟨hc, (hthm.2 hc).1, (hthm.2 hc).2.1, (hthm.2 hc).2.2⟩

/-- C1 (amended): `go()` answers `go-reject` exactly when the
`frozen_at_start` flag is down — not exactly when the state differs from
`load-frozen` — and a reject leaves the whole driver unchanged. -/
theorem go_reject_guard (d : Driver) (v : ℚ) (h : Nat) :
    ((d.go v h).2 = "go-reject" ↔ d.frozen_at_start = false) ∧
    (d.frozen_at_start = false → d.go v h = (d, "go-reject")) := by
  unfold Driver.go
  cases hf : d.frozen_at_start <;> simp [hf]

/-- Witness for C1: a showing driver (freeze flag down) is rejected and
unchanged. -/
theorem go_reject_guard_witness :
    Driver.go dShowing 100 11 = (dShowing, "go-reject") :=
  (go_reject_guard dShowing 100 11).2 rfl

/-- Counterexample to C1 as stated: after a completed load with
`freeze_at_start = 'no'` the reachable state is `load-ok`, not
`load-frozen`, yet `go()` answers `go-ok` there — the guard is the
`frozen_at_start` flag, not the `load-frozen` state. -/
theorem go_reject_guard_counterexample :
    loadOkDriver.state = "load-ok" ∧ loadOkDriver.state ≠ "load-frozen" ∧
    (Driver.go loadOkDriver 100 11).2 = "go-ok" := by decide

/-- C3 (amended): every symbol outside the five specially recognised ones
(`pp-terminate`, `pp-shutdown`, `pp-shutdownnow`, `pp-exitpipresents`,
`pp-restartpipresents`) is broadcast, state untouched, to the registered
shows in registry order with `None` entries skipped. -/
theorem input_event_broadcast (p : Dispatcher) (symbol : String)
    (hns : symbol ∉ (["pp-terminate", "pp-shutdown", "pp-shutdownnow",
      "pp-exitpipresents", "pp-restartpipresents"] : List String)) :
    handle_input_event p symbol = (p, InEffect.broadcast (p.shows.filterMap id)) := by
  unfold handle_input_event
  split <;> simp_all [broadcastShows_eq_filterMap]

/-- Witness for C3: an ordinary event symbol reaches exactly the two live
shows of the registry, in order. -/
theorem input_event_broadcast_witness :
    handle_input_event pW "pp-pause" = (pW, InEffect.broadcast [0, 1]) :=
  (input_event_broadcast pW "pp-pause" (by decide)).trans (by rfl)

/-- Counterexample to C3 as stated: `pp-shutdown` is a fifth recognised
symbol — it ends the run with an error (the event was removed in 1.3.3a)
instead of being broadcast to the registered shows. -/
theorem input_event_broadcast_counterexample :
    (handle_input_event pW "pp-shutdown").2 = InEffect.shutdownRemovedError ∧
    (handle_input_event pW "pp-shutdown").2 ≠ InEffect.broadcast [0, 1] := by decide

/-- C4 (amended): every command whose first token is outside the vocabulary
`osc`/`OSC`, `counter`, `beep`, `vibe`, `backlight`, `monitor`, `cec`,
`animate`, `open`, `close`, `closeall`, `openexclusive`, `event`,
`exitpipresents`, `shutdownnow`, `reboot` is answered with the
command-not-recognised error effect, which terminates the run with an
error. -/
theorem command_unrecognised_error (p : Dispatcher) (text : String)
    (ctl : String × String) (first : String) (rest : List String)
    (htok : tokenize text = first :: rest)
    (hv : first ∉ (["osc", "OSC", "counter", "beep", "vibe", "backlight", "monitor",
      "cec", "animate", "open", "close", "closeall", "openexclusive", "event",
      "exitpipresents", "shutdownnow", "reboot"] : List String)) :
    handle_command p text ctl = (p, .commandError ("command not recognised: " ++ first)) := by
  unfold handle_command
  simp only [htok]
  split <;> simp_all

/-- Witness for C4: a made-up verb is rejected with the error effect. -/
theorem command_unrecognised_error_witness :
    handle_command pW "fly away" ("normal", "") =
      (pW, CmdEffect.commandError ("command not recognised: " ++ "fly")) :=
  command_unrecognised_error pW "fly away" ("normal", "") "fly" ["away"]
    (by decide) (by decide)

/-- Counterexample to C4 as stated: the token `OSC` is outside the claimed
vocabulary, yet `handle_command` accepts it as a case-variant of `osc` (here
returning silently because OSC is disabled) instead of reporting a command
error. -/
theorem command_unrecognised_error_counterexample :
    tokenize "OSC output" = ["OSC", "output"] ∧
    ("OSC" ∉ (["osc", "counter", "beep", "vibe", "backlight", "monitor", "cec",
      "animate", "open", "close", "closeall", "openexclusive", "event",
      "exitpipresents", "shutdownnow", "reboot"] : List String)) ∧
    (handle_command pW "OSC output" ("normal", "")).2 = CmdEffect.silent := by decide

/-- C5: across any sequence of dispatcher operations, each pending-shutdown
intent flag that is `True` stays `True`: no handler ever resets one during
a run. -/
theorem intent_flags_persist (ops : List DOp) (p : Dispatcher) :
    FlagLe p (ops.foldl applyOp p) := by
  induction ops generalizing p with
  | nil => exact ⟨id, id, id, id, id⟩
  | cons op rest ih => exact flagLe_trans (flagLe_applyOp p op) (ih (applyOp p op))

/-- Witness for C5: with every intent raised, a run of operations leaves
all five flags raised. -/
theorem intent_flags_persist_witness :
    ((([DOp.input "pp-pause", DOp.command "beep loud" ("normal", ""),
        DOp.allShowsEnded]).foldl applyOp pAllIntents).shutdown_required = true) ∧
    ((([DOp.input "pp-pause", DOp.command "beep loud" ("normal", ""),
        DOp.allShowsEnded]).foldl applyOp pAllIntents).reboot_required = true) ∧
    ((([DOp.input "pp-pause", DOp.command "beep loud" ("normal", ""),
        DOp.allShowsEnded]).foldl applyOp pAllIntents).terminate_required = true) ∧
    ((([DOp.input "pp-pause", DOp.command "beep loud" ("normal", ""),
        DOp.allShowsEnded]).foldl applyOp pAllIntents).exitpipresents_required = true) ∧
    ((([DOp.input "pp-pause", DOp.command "beep loud" ("normal", ""),
        DOp.allShowsEnded]).foldl applyOp pAllIntents).restartpipresents_required = true) := by
  have h := intent_flags_persist
    [DOp.input "pp-pause", DOp.command "beep loud" ("normal", ""), DOp.allShowsEnded]
    pAllIntents
  exact ⟨h.1 rfl, h.2.1 rfl, h.2.2.1 rfl, h.2.2.2.1 rfl, h.2.2.2.2 rfl⟩

end PiPresentsGtk
